import Mathlib

/-!
# Verification of the SynToxRepresentatives analytics core

Shallow embedding of the metrics-derivation pipeline of the
SynToxRepresentatives dashboard (files `analytics.py`, `app.py`), together
with theorems settling the frozen claims about it.

Modelling conventions:
* A pandas `DataFrame` becomes a Lean structure holding a list of typed rows,
  plus (where a claim depends on column presence) an explicit list of column
  names.  A nullable column value becomes an `Option`.
* pandas elementwise `== value` comparisons treat `NaN` as unequal, hence the
  predicate `· = some v` on `Option` columns.
* pandas float arithmetic on volume columns is embedded by `EF`, an extended
  number type with `nan`, `inf`, `ninf` and exact rational values; division by
  zero yields `inf`/`ninf`/`nan` exactly as IEEE division does on the integer
  volumes that occur here, and `fillna(0)` replaces only `nan`.
* Sorted `groupby` keys are embedded by an insertion sort (`sortBy`): group
  keys are distinct, so any comparison sort gives the same, fully determined
  order.  Where a `sort_values` call sorts rows whose sort keys may tie
  (pandas' default `kind='quicksort'` leaves tie order unspecified), no
  theorem below depends on the order of tied rows.
-/

namespace SynTox

/-! ## Generic stable insertion sort (model of `sort_values` / sorted groupby keys)

`keep y x = true` means `y` stays in front of an `x` being inserted behind it;
for a stable sort `keep` is the strict comparison, so that an element inserted
later is placed after the equal elements already present.  `sortBy` inserts
from the right, hence earlier input elements are placed in front of equal
later ones: ties retain input order. -/

def insertBy (keep : α → α → Bool) (x : α) : List α → List α
  | [] => [x]
  | y :: ys => if keep y x then y :: insertBy keep x ys else x :: y :: ys

def sortBy (keep : α → α → Bool) : List α → List α
  | [] => []
  | x :: xs => insertBy keep x (sortBy keep xs)

/-! ## `compute_credenciamento` (analytics.py lines 21-31)

A laboratory record: `active`, `approved` and `exclusionDate` are nullable
columns; `exclusionDate` is embedded as an opaque-to-the-claim integer day
number.  The source sets `is_credenciado = (labs.get("active", True) == True)`;
the pandas elementwise `== True` is false on null, i.e. `active = some true`. -/

structure LabRec where
  lab_id : String
  active : Option Bool
  approved : Option Bool
  exclusionDate : Option Int
  deriving DecidableEq, Repr

structure LabCred extends LabRec where
  is_credenciado : Bool
  deriving DecidableEq, Repr

def compute_credenciamento (df_labs : List LabRec) : List LabCred :=
  df_labs.map fun lab => { lab with is_credenciado := decide (lab.active = some true) }

/-! ## `filter_active_gatherings` (analytics.py lines 10-18) -/

structure GFlagsRow where
  active : Option Bool
  test : Option Bool
  disabledInReport : Option Bool
  deriving DecidableEq, Repr

/-- A gatherings table as seen by `filter_active_gatherings`: row filtering
never changes the column set, so column presence is carried as table flags. -/
structure GFlagsTable where
  hasTest : Bool
  hasDisabled : Bool
  rows : List GFlagsRow
  deriving DecidableEq, Repr

def filter_active_gatherings (df : GFlagsTable) (exclude_test exclude_disabled : Bool) :
    GFlagsTable :=
  let out := df.rows.filter fun r => decide (r.active = some true)
  let out := if exclude_test && df.hasTest then
      out.filter fun r => decide (r.test = some false)
    else out
  let out := if exclude_disabled && df.hasDisabled then
      out.filter fun r => decide (r.disabledInReport = some false)
    else out
  { df with rows := out }

/-! ## Computable string order

Python (and pandas object-dtype) string comparison is lexicographic by code
point; `charListLt`/`strLt` embed it directly on the character data. -/

def charListLt : List Char → List Char → Bool
  | [], [] => false
  | [], _ :: _ => true
  | _ :: _, [] => false
  | a :: as, b :: bs =>
      if a.toNat < b.toNat then true
      else if b.toNat < a.toNat then false
      else charListLt as bs

def strLt (a b : String) : Bool := charListLt a.data b.data

/-! ## Extended numbers: pandas float results of volume arithmetic

Volumes are integer counts; the only non-integer values that arise are the
`NaN` produced by `shift(1)` on the first row, and the `inf`/`-inf`/`NaN`
produced by dividing by a zero previous volume.  `EF.val q` holds an exact
rational; `fillna0` is pandas `fillna(0)`, which replaces only `NaN`. -/

inductive EF where
  | nan : EF
  | inf : EF
  | ninf : EF
  | val (q : ℚ) : EF
  deriving DecidableEq, Repr

/-- `(cur - prev) / prev * 100` in pandas float arithmetic, where `prev` is the
`shift(1)` value (`none` = NaN on a first row).  The finite value is written
`Rat.divInt ((cur - p) * 100) p`, which equals `((cur : ℚ) - p) / p * 100`
(see `rawVariation_eq_div`). -/
def rawVariation (cur : Int) (prev : Option Int) : EF :=
  match prev with
  | none => EF.nan
  | some p =>
      if p = 0 then
        if cur = 0 then EF.nan else if cur > 0 then EF.inf else EF.ninf
      else EF.val (Rat.divInt ((cur - p) * 100) p)

def fillna0 : EF → EF
  | EF.nan => EF.val 0
  | e => e

/-- Elementwise `< t` on the variation column (`NaN < t` is false). -/
def efLt (e : EF) (t : ℚ) : Bool :=
  match e with
  | EF.nan => false
  | EF.inf => false
  | EF.ninf => true
  | EF.val q => decide (q < t)

/-! ## `compute_monthly_variations` (app.py lines 35-47)

The input is a monthly volume table (`month` string column, `Volume` count);
the function sorts by month, shifts the whole `Volume` column by one row,
computes the percentage variation, fills the `NaN`s with 0 and flags
variations below -10 as drops. -/

structure MonthlyRow where
  month : String
  volume : Int
  deriving DecidableEq, Repr

structure VarRow where
  month : String
  volume : Int
  previous_volume : Option Int
  variation : EF
  is_drop : Bool
  deriving DecidableEq, Repr

/-- `shift(1)` over the whole frame: each row is paired with the volume of the
row just above it. -/
def addPrevAll : Option Int → List MonthlyRow → List (MonthlyRow × Option Int)
  | _, [] => []
  | prev, r :: rs => (r, prev) :: addPrevAll (some r.volume) rs

def mkVarRow (threshold : ℚ) (m : String) (vol : Int) (prev : Option Int) : VarRow :=
  let variation := fillna0 (rawVariation vol prev)
  { month := m, volume := vol, previous_volume := prev,
    variation := variation, is_drop := efLt variation threshold }

def compute_monthly_variations (monthly : List MonthlyRow) : List VarRow :=
  if monthly.isEmpty then []
  else
    let monthly_sorted := sortBy (fun a b => strLt a.month b.month) monthly
    (addPrevAll none monthly_sorted).map fun rp =>
      mkVarRow (-10) rp.1.month rp.1.volume rp.2

/-! ## `detect_lab_drops` (app.py lines 94-131)

Gatherings carry the laboratory key, the representative display name
(nullable), the calendar month of `createdAt` (a `Period`, embedded as an
integer month index) and the optional `fantasyName`/`cnpj` columns used for
enrichment.  Per-laboratory monthly volumes are a `groupby` size, whose keys
come out sorted by `(laboratory, month)`; the per-group `shift(1)` is the
directly preceding row when it belongs to the same laboratory. -/

structure GDropRow where
  laboratory : String
  name_rep : Option String
  month : Int
  fantasyName : Option String
  cnpj : Option String
  deriving DecidableEq, Repr

structure GDropTable where
  hasFantasyName : Bool
  rows : List GDropRow
  deriving DecidableEq, Repr

structure LabMonthlyRow where
  laboratory : String
  month : Int
  volume : Int
  deriving DecidableEq, Repr

structure DropRow where
  laboratory : String
  month : Int
  volume : Int
  previous_volume : Option Int
  variation : EF
  is_drop : Bool
  lab_info : String
  deriving DecidableEq, Repr

/-- Boolean strict order on `(laboratory, month)` group keys. -/
def labMonthLt (a b : String × Int) : Bool :=
  strLt a.1 b.1 || (decide (a.1 = b.1) && decide (a.2 < b.2))

/-- `groupby(['_laboratory', 'month']).size()`: one row per distinct key, keys
sorted ascending, value = number of occurrences. -/
def labMonthlyCounts (rows : List GDropRow) : List LabMonthlyRow :=
  let keys := (rows.map fun g => (g.laboratory, g.month)).dedup
  let sortedKeys := sortBy (fun a b => labMonthLt a b) keys
  sortedKeys.map fun k =>
    { laboratory := k.1, month := k.2,
      volume := (rows.countP fun g => decide ((g.laboratory, g.month) = k) : Int) }

/-- `groupby('_laboratory')['Volume'].shift(1)` on a frame sorted by
`(laboratory, month)`: the previous row's volume if it is the same
laboratory's. -/
def addPrevByLab : Option (String × Int) → List LabMonthlyRow → List (LabMonthlyRow × Option Int)
  | _, [] => []
  | prev, r :: rs =>
      let p := match prev with
        | some pv => if pv.1 = r.laboratory then some pv.2 else none
        | none => none
      (r, p) :: addPrevByLab (some (r.laboratory, r.volume)) rs

def mkDropRow (lm : LabMonthlyRow) (prev : Option Int) : DropRow :=
  let variation := fillna0 (rawVariation lm.volume prev)
  { laboratory := lm.laboratory, month := lm.month, volume := lm.volume,
    previous_volume := prev, variation := variation,
    is_drop := efLt variation (-30), lab_info := "" }

/-- The `lab_info` concatenation of the fantasy-name branch. -/
def mkLabInfo (f c : Option String) : String :=
  (f.getD "Lab sem nome") ++ " (" ++ (c.getD "CNPJ não informado") ++ ")"

/-- One drops row after the left merge with the deduplicated
`(laboratory, fantasyName, cnpj)` triples: every matching triple produces a
row; an unmatched laboratory keeps one row with null fields. -/
def enrichOne (lab_info : List (String × Option String × Option String)) (d : DropRow) :
    List DropRow :=
  let ms := lab_info.filter fun t => decide (t.1 = d.laboratory)
  if ms.isEmpty then [{ d with lab_info := mkLabInfo none none }]
  else ms.map fun t => { d with lab_info := mkLabInfo t.2.1 t.2.2 }

/-- The enrichment step (app.py lines 125-131). -/
def enrichDrops (df : GDropTable) (drops : List DropRow) : List DropRow :=
  if df.hasFantasyName then
    drops.flatMap (enrichOne ((df.rows.map fun g => (g.laboratory, g.fantasyName, g.cnpj)).dedup))
  else
    drops.map fun d => { d with lab_info := "Laboratório ID: " ++ d.laboratory }

/-- The rows of the representative's laboratories: `rep_labs_ids` followed by
the `isin` filter. -/
def repGatheringsOf (rows : List GDropRow) (rep_name : String) : List GDropRow :=
  let rep_labs_ids := (rows.filter fun g => decide (g.name_rep = some rep_name)).map
    (·.laboratory)
  rows.filter fun g => rep_labs_ids.contains g.laboratory

/-- The per-laboratory monthly variation rows (`lab_monthly` after the shift,
variation, fillna and is_drop column assignments). -/
def labVariationsOf (rows : List GDropRow) : List DropRow :=
  (addPrevByLab none (labMonthlyCounts rows)).map fun rp => mkDropRow rp.1 rp.2

/-- `drops = lab_monthly[lab_monthly['is_drop']]`. -/
def dropsOf (rows : List GDropRow) : List DropRow :=
  (labVariationsOf rows).filter (·.is_drop)

/-- The target-month restriction, applied only when some drops exist. -/
def filterTargetMonth (target_month : Option Int) (drops : List DropRow) : List DropRow :=
  match target_month with
  | some m => if drops.isEmpty then drops else drops.filter fun d => decide (d.month = m)
  | none => drops

def detect_lab_drops (df : GDropTable) (rep_name : String) (target_month : Option Int) :
    List DropRow :=
  let rep_gatherings := repGatheringsOf df.rows rep_name
  if rep_gatherings.isEmpty then []
  else
    let drops := filterTargetMonth target_month (dropsOf rep_gatherings)
    if drops.isEmpty then [] else enrichDrops df drops

/-! ## `compute_kpis` (analytics.py lines 126-153)

The monthly table has a `month` column, possibly a `Categoria` column, and a
`Volume` column of integer counts.  Column presence is carried explicitly;
`int(...)` on the float mean truncates toward zero, embedded by `ratTrunc`. -/

structure KpiRow where
  month : String
  categoria : String
  volume : Int
  deriving DecidableEq, Repr

structure KpiTable where
  cols : List String
  rows : List KpiRow
  deriving DecidableEq, Repr

structure Kpis where
  total : Int
  max : Int
  min : Int
  avg : Int
  deriving DecidableEq, Repr

/-- Python `int()` on an exact rational: truncation toward zero. -/
def ratTrunc (q : ℚ) : Int := Int.tdiv q.num (q.den : Int)

def listMax : List Int → Int
  | [] => 0
  | x :: xs => xs.foldl max x

def listMin : List Int → Int
  | [] => 0
  | x :: xs => xs.foldl min x

/-- `df.groupby('month', as_index=False)['Volume'].sum()`: one value per
distinct month (keys sorted ascending), the sum of that month's volumes. -/
def perMonthSums (rows : List KpiRow) : List Int :=
  let keys := sortBy (fun a b => strLt a b) (rows.map (·.month)).dedup
  keys.map fun m => ((rows.filter fun r => decide (r.month = m)).map (·.volume)).sum

def compute_kpis (monthly : KpiTable) : Kpis :=
  if monthly.rows.isEmpty || !monthly.cols.contains "Volume" then
    { total := 0, max := 0, min := 0, avg := 0 }
  else
    let series :=
      if monthly.cols.contains "Categoria" then perMonthSums monthly.rows
      else monthly.rows.map (·.volume)
    if series.isEmpty then { total := 0, max := 0, min := 0, avg := 0 }
    else
      { total := series.sum,
        max := listMax series,
        min := listMin series,
        avg := ratTrunc (Rat.divInt series.sum series.length) }

/-! ## Timestamps (model of `pd.Timestamp` at minute precision)

`createdAt` values carry a civil date and a time of day; `daysFromCivil` is
the standard days-from-civil conversion, `tdDays` is Python's
`timedelta.days` (floor of the difference in whole days), and `strftimeTs`
renders `"%d/%m/%Y %H:%M"`. -/

structure Timestamp where
  year : Int
  month : Int
  day : Int
  hour : Int
  minute : Int
  deriving DecidableEq, Repr

def daysFromCivil (y m d : Int) : Int :=
  let y := if m ≤ 2 then y - 1 else y
  let era := Int.fdiv y 400
  let yoe := y - era * 400
  let mp := Int.emod (m + 9) 12
  let doy := Int.fdiv (153 * mp + 2) 5 + d - 1
  let doe := yoe * 365 + Int.fdiv yoe 4 - Int.fdiv yoe 100 + doy
  era * 146097 + doe - 719468

def tsMinutes (t : Timestamp) : Int :=
  daysFromCivil t.year t.month t.day * 1440 + t.hour * 60 + t.minute

/-- `(a - b).days` for Python timestamps: whole days, floored toward minus
infinity. -/
def tdDays (a b : Timestamp) : Int := Int.fdiv (tsMinutes a - tsMinutes b) 1440

def pad2 (n : Int) : String :=
  if n < 10 then "0" ++ toString n else toString n

/-- `x.strftime("%d/%m/%Y %H:%M")`. -/
def strftimeTs (t : Timestamp) : String :=
  pad2 t.day ++ "/" ++ pad2 t.month ++ "/" ++ toString t.year ++ " " ++
    pad2 t.hour ++ ":" ++ pad2 t.minute

/-! ## `compute_coleta_status` (analytics.py lines 34-100)

Laboratories are keyed by `_id`; gatherings carry the `_laboratory` foreign
key and a nullable `createdAt` (`none` embeds a value on which
`pd.to_datetime(..., errors="coerce")` fails and which `dropna` removes).
The left merge against the per-laboratory maximum is keyed on unique
laboratory ids, so it keeps the `labs` rows in order, one output row per
input row. -/

structure ColetaLab where
  lab_id : String
  deriving DecidableEq, Repr

structure ColetaGathering where
  laboratory : String
  createdAt : Option Timestamp
  deriving DecidableEq, Repr

structure ColetaStatus where
  lab_id : String
  ativo_coleta : Bool
  days_since_last : Int
  ultima_coleta : Option Timestamp
  ultima_coleta_str : String
  days_since_last_display : String
  deriving DecidableEq, Repr

/-- The `lambda x: str(x) if x != 999 else "-"` display column. -/
def displayOfDays (d : Int) : String := if d ≠ 999 then toString d else "-"

/-- The `_days_diff_safe` helper: 999 on a null timestamp, otherwise the day
difference clamped at 0. -/
def daysDiffSafe (current : Timestamp) : Option Timestamp → Int
  | none => 999
  | some dt => max (tdDays current dt) 0

def tsMax (a b : Timestamp) : Timestamp :=
  if tsMinutes a ≤ tsMinutes b then b else a

/-- `groupby("_laboratory")["createdAt"].max()` over the cleaned gatherings:
one row per laboratory id (keys sorted ascending), value = latest timestamp. -/
def lastCollectionOf (clean : List (String × Timestamp)) : List (String × Timestamp) :=
  let keys := sortBy (fun a b => strLt a b) (clean.map (·.1)).dedup
  keys.filterMap fun k =>
    match (clean.filter fun c => decide (c.1 = k)).map (·.2) with
    | [] => none
    | t :: ts => some (k, ts.foldl tsMax t)

/-- The row of the initialisation block (lines 42-50): defaults before any
gathering data is consulted. -/
def initColetaStatus (l : ColetaLab) : ColetaStatus :=
  { lab_id := l.lab_id, ativo_coleta := false, days_since_last := 999,
    ultima_coleta := none, ultima_coleta_str := "Sem coletas",
    days_since_last_display := displayOfDays 999 }

/-- The row after the merge branch (lines 54-96). -/
def mergedColetaStatus (last_collection : List (String × Timestamp))
    (current : Timestamp) (window : Int) (l : ColetaLab) : ColetaStatus :=
  let found := (last_collection.find? fun c => decide (c.1 = l.lab_id)).map (·.2)
  let days := daysDiffSafe current found
  { lab_id := l.lab_id,
    ativo_coleta := decide (days ≤ window),
    days_since_last := days,
    ultima_coleta := found,
    ultima_coleta_str := match found with
      | some t => strftimeTs t
      | none => "Sem coletas",
    days_since_last_display := displayOfDays days }

def compute_coleta_status (df_labs_cred : List ColetaLab)
    (df_gatherings_active : List ColetaGathering) (current_date : Timestamp)
    (activity_window_days : Int) :
    List ColetaStatus × Int × Int × List (String × Timestamp) :=
  if df_gatherings_active.isEmpty then
    let labs := df_labs_cred.map initColetaStatus
    (labs, (labs.countP (·.ativo_coleta) : Int),
      (labs.length : Int) - (labs.countP (·.ativo_coleta) : Int), [])
  else
    let clean := df_gatherings_active.filterMap fun g =>
      g.createdAt.map fun t => (g.laboratory, t)
    let last_collection := lastCollectionOf clean
    let labs := df_labs_cred.map
      (mergedColetaStatus last_collection current_date activity_window_days)
    (labs, (labs.countP (·.ativo_coleta) : Int),
      (labs.length : Int) - (labs.countP (·.ativo_coleta) : Int), last_collection)

/-! ## `compute_geographic_metrics` / `compute_city_metrics`
(analytics.py lines 424-486 and 489-551)

Tables carry their column-name list; geographic values are nullable.  The
activation-rate and productivity ratios reuse `EF` (a zero denominator gives
`inf`/`NaN` exactly as in pandas, and `.fillna(0)` replaces only `NaN`). -/

structure GeoGathering where
  laboratory : String
  state_code : Option String
  state_name : Option String
  city : Option String
  deriving DecidableEq, Repr

structure GeoGTable where
  cols : List String
  rows : List GeoGathering
  deriving DecidableEq, Repr

structure GeoLab where
  lab_id : String
  state_code : Option String
  state_name : Option String
  city : Option String
  is_credenciado : Bool
  deriving DecidableEq, Repr

structure GeoMetricRow where
  state_code : String
  state_name : String
  labs_ativos : Int
  total_coletas : Int
  total_labs : Int
  labs_credenciados : Int
  labs_inativos : Int
  taxa_ativacao : EF
  produtividade : EF
  deriving DecidableEq, Repr

structure GeoTable where
  cols : List String
  rows : List GeoMetricRow
  deriving DecidableEq, Repr

def geoSchema : List String :=
  ["state_code", "state_name", "labs_ativos", "total_coletas",
   "total_labs", "labs_credenciados", "labs_inativos",
   "taxa_ativacao", "produtividade"]

/-- `a / b` on count columns followed by `.fillna(0)`: `0/0` is `NaN` (then
0), `x/0` with `x > 0` is `inf` and survives `fillna`. -/
def ratioFillna (a b : Int) : EF :=
  fillna0 (if b = 0 then (if a = 0 then EF.nan else if a > 0 then EF.inf else EF.ninf)
    else EF.val (Rat.divInt a b))

def efMul100 : EF → EF
  | EF.nan => EF.nan
  | EF.inf => EF.inf
  | EF.ninf => EF.ninf
  | EF.val q => EF.val (q * 100)

/-- `(a / b * 100).fillna(0)` for the activation rate. -/
def rateFillna (a b : Int) : EF :=
  fillna0 (efMul100 (if b = 0 then (if a = 0 then EF.nan else if a > 0 then EF.inf else EF.ninf)
    else EF.val (Rat.divInt a b)))

def stateKeyLt (a b : String × String) : Bool :=
  strLt a.1 b.1 || (decide (a.1 = b.1) && strLt a.2 b.2)

/-- Outer-merge key order: the left keys in left order, then the right-only
keys in right order. -/
def outerKeys [DecidableEq κ] (leftKeys rightKeys : List κ) : List κ :=
  leftKeys ++ rightKeys.filter fun k => !leftKeys.contains k

def compute_geographic_metrics (df_gatherings_active : GeoGTable)
    (df_labs_status : List GeoLab) : GeoTable :=
  if !df_gatherings_active.cols.contains "state_code" ||
     !df_gatherings_active.cols.contains "state_name" then
    { cols := geoSchema, rows := [] }
  else
    let gLoc := df_gatherings_active.rows.filter fun g =>
      g.state_code.isSome && g.state_name.isSome
    let lLoc := df_labs_status.filter fun l =>
      l.state_code.isSome && l.state_name.isSome
    if gLoc.isEmpty then { cols := geoSchema, rows := [] }
    else
      let gKey : GeoGathering → String × String := fun g =>
        (g.state_code.getD "", g.state_name.getD "")
      let lKey : GeoLab → String × String := fun l =>
        (l.state_code.getD "", l.state_name.getD "")
      let gKeys := sortBy (fun a b => stateKeyLt a b) (gLoc.map gKey).dedup
      let lKeys := sortBy (fun a b => stateKeyLt a b) (lLoc.map lKey).dedup
      let keys := outerKeys gKeys lKeys
      let rows := keys.map fun k =>
        let gk := gLoc.filter fun g => decide (gKey g = k)
        let lk := lLoc.filter fun l => decide (lKey l = k)
        let ativos : Int := if gk.isEmpty then 0 else ((gk.map (·.laboratory)).dedup.length : Int)
        let coletas : Int := (gk.length : Int)
        let total_labs : Int := (lk.length : Int)
        let cred : Int := (lk.countP (·.is_credenciado) : Int)
        ({ state_code := k.1, state_name := k.2,
           labs_ativos := ativos, total_coletas := coletas,
           total_labs := total_labs, labs_credenciados := cred,
           labs_inativos := cred - ativos,
           taxa_ativacao := rateFillna ativos cred,
           produtividade := ratioFillna coletas ativos } : GeoMetricRow)
      { cols := geoSchema,
        rows := sortBy (fun a b => decide ((fun x : GeoMetricRow => x.total_coletas) b <
          (fun x : GeoMetricRow => x.total_coletas) a)) rows }

structure CityMetricRow where
  state_code : String
  state_name : String
  city : String
  labs_ativos : Int
  total_coletas : Int
  total_labs : Int
  labs_credenciados : Int
  labs_inativos : Int
  taxa_ativacao : EF
  produtividade : EF
  deriving DecidableEq, Repr

structure CityTable where
  cols : List String
  rows : List CityMetricRow
  deriving DecidableEq, Repr

def citySchema : List String :=
  ["state_code", "state_name", "city", "labs_ativos", "total_coletas",
   "total_labs", "labs_credenciados", "labs_inativos",
   "taxa_ativacao", "produtividade"]

def cityKeyLt (a b : String × String × String) : Bool :=
  strLt a.1 b.1 || (decide (a.1 = b.1) &&
    (strLt a.2.1 b.2.1 || (decide (a.2.1 = b.2.1) && strLt a.2.2 b.2.2)))

def compute_city_metrics (df_gatherings_active : GeoGTable)
    (df_labs_status : List GeoLab) : CityTable :=
  if !df_gatherings_active.cols.contains "state_code" ||
     !df_gatherings_active.cols.contains "state_name" ||
     !df_gatherings_active.cols.contains "city" then
    { cols := citySchema, rows := [] }
  else
    let gLoc := df_gatherings_active.rows.filter fun g =>
      g.state_code.isSome && g.state_name.isSome && g.city.isSome
    let lLoc := df_labs_status.filter fun l =>
      l.state_code.isSome && l.state_name.isSome && l.city.isSome
    if gLoc.isEmpty then { cols := citySchema, rows := [] }
    else
      let gKey : GeoGathering → String × String × String := fun g =>
        (g.state_code.getD "", g.state_name.getD "", g.city.getD "")
      let lKey : GeoLab → String × String × String := fun l =>
        (l.state_code.getD "", l.state_name.getD "", l.city.getD "")
      let gKeys := sortBy (fun a b => cityKeyLt a b) (gLoc.map gKey).dedup
      let lKeys := sortBy (fun a b => cityKeyLt a b) (lLoc.map lKey).dedup
      let keys := outerKeys gKeys lKeys
      let rows := keys.map fun k =>
        let gk := gLoc.filter fun g => decide (gKey g = k)
        let lk := lLoc.filter fun l => decide (lKey l = k)
        let ativos : Int := if gk.isEmpty then 0 else ((gk.map (·.laboratory)).dedup.length : Int)
        let coletas : Int := (gk.length : Int)
        let total_labs : Int := (lk.length : Int)
        let cred : Int := (lk.countP (·.is_credenciado) : Int)
        ({ state_code := k.1, state_name := k.2.1, city := k.2.2,
           labs_ativos := ativos, total_coletas := coletas,
           total_labs := total_labs, labs_credenciados := cred,
           labs_inativos := cred - ativos,
           taxa_ativacao := rateFillna ativos cred,
           produtividade := ratioFillna coletas ativos } : CityMetricRow)
      { cols := citySchema,
        rows := sortBy (fun a b => decide ((fun x : CityMetricRow => x.total_coletas) b <
          (fun x : CityMetricRow => x.total_coletas) a)) rows }

/-! ## Frame behaviour: the mutation structure of the transformations (C9)

Python DataFrames are heap objects; `df.copy()`, `df.sort_values(...)` and
`df.merge(...)` allocate fresh objects, while `df["col"] = ...` mutates the
object the name is bound to in place.  `Store` makes this explicit: cells are
table values, references are cell indices, and each function below is the
statement-for-statement translation of the source, recording which cell every
column assignment targets.  A column that a statement has not yet created is
`none`. -/

structure Store (α : Type) where
  cells : List α
  deriving Repr

def Store.alloc (s : Store α) (v : α) : Store α × Nat :=
  ({ cells := s.cells ++ [v] }, s.cells.length)

def Store.write (s : Store α) (r : Nat) (v : α) : Store α :=
  { cells := s.cells.set r v }

/-- A laboratory row as `compute_credenciamento` sees it: the input column
`active` plus the derived column it creates. -/
structure CredProgRow where
  active : Option Bool
  is_credenciado : Option Bool
  deriving DecidableEq, Repr

/-- `labs["is_credenciado"] = labs.get("active", True) == True`. -/
def addIsCredCol (rows : List CredProgRow) : List CredProgRow :=
  rows.map fun r => { r with is_credenciado := some (decide (r.active = some true)) }

/-- `compute_credenciamento` as a heap program: copy, then one column write on
the copy. -/
def compute_credenciamento_prog (s : Store (List CredProgRow)) (input : Nat) :
    Store (List CredProgRow) × Nat :=
  let df_labs := s.cells.getD input []
  let a1 := s.alloc df_labs
  let s1 := a1.1
  let labsRef := a1.2
  let s2 := s1.write labsRef (addIsCredCol (s1.cells.getD labsRef []))
  (s2, labsRef)

/-- A monthly row as `compute_monthly_variations` sees it: input columns plus
the three derived columns it creates (`none` until the creating statement
runs; the inner `Option Int` of `previous_volume` is the `shift` NaN). -/
structure MVProgRow where
  month : String
  volume : Int
  previous_volume : Option (Option Int)
  variation : Option EF
  is_drop : Option Bool
  deriving DecidableEq, Repr

def mvSortRows (rows : List MVProgRow) : List MVProgRow :=
  sortBy (fun a b => strLt a.month b.month) rows

def mvSetPrevAux : Option Int → List MVProgRow → List MVProgRow
  | _, [] => []
  | prev, r :: rs => { r with previous_volume := some prev } :: mvSetPrevAux (some r.volume) rs

/-- `monthly_sorted['previous_volume'] = monthly_sorted['Volume'].shift(1)`. -/
def mvSetPrev (rows : List MVProgRow) : List MVProgRow := mvSetPrevAux none rows

def mvSetVariation (rows : List MVProgRow) : List MVProgRow :=
  rows.map fun r =>
    { r with variation := some (rawVariation r.volume (r.previous_volume.getD none)) }

def mvFillna (rows : List MVProgRow) : List MVProgRow :=
  rows.map fun r => { r with variation := r.variation.map fillna0 }

def mvSetIsDrop (rows : List MVProgRow) : List MVProgRow :=
  rows.map fun r => { r with is_drop := some (efLt (r.variation.getD (EF.val 0)) (-10)) }

/-- `compute_monthly_variations` as a heap program: `sort_values` allocates a
new frame (as does the empty-input `pd.DataFrame()`), and the four column
writes all target that new frame. -/
def compute_monthly_variations_prog (s : Store (List MVProgRow)) (input : Nat) :
    Store (List MVProgRow) × Nat :=
  let monthly := s.cells.getD input []
  if monthly.isEmpty then s.alloc []
  else
    let a1 := s.alloc (mvSortRows monthly)
    let s1 := a1.1
    let r := a1.2
    let s2 := s1.write r (mvSetPrev (s1.cells.getD r []))
    let s3 := s2.write r (mvSetVariation (s2.cells.getD r []))
    let s4 := s3.write r (mvFillna (s3.cells.getD r []))
    let s5 := s4.write r (mvSetIsDrop (s4.cells.getD r []))
    (s5, r)

/-- A laboratory row as `compute_coleta_status` sees it: the key column plus
the columns the function creates (including the `createdAt_coleta` column
brought in by the merge). -/
structure CSProgRow where
  lab_id : String
  ativo_coleta : Option Bool
  days_since_last : Option Int
  ultima_coleta : Option (Option Timestamp)
  ultima_coleta_str : Option String
  days_since_last_display : Option String
  createdAt_coleta : Option (Option Timestamp)
  deriving DecidableEq, Repr

/-- Heap cells for `compute_coleta_status`: laboratory frames and gathering
frames live on the same heap. -/
inductive CSCell where
  | labs (rows : List CSProgRow)
  | gaths (rows : List ColetaGathering)
  deriving DecidableEq, Repr

def CSCell.labsRows : CSCell → List CSProgRow
  | .labs rows => rows
  | .gaths _ => []

def CSCell.gathRows : CSCell → List ColetaGathering
  | .gaths rows => rows
  | .labs _ => []

def csMapLabs (s : Store CSCell) (r : Nat) (f : List CSProgRow → List CSProgRow) :
    Store CSCell :=
  s.write r (.labs (f (s.cells.getD r (.labs [])).labsRows))

/-- The merge step: attach the per-laboratory `createdAt` of `last_collection`
(left merge on `_id = _laboratory`, unique right keys). -/
def csMergeCol (last_collection : List (String × Timestamp)) (r : CSProgRow) : CSProgRow :=
  let found := (last_collection.find? fun c => decide (c.1 = r.lab_id)).map (·.2)
  { r with createdAt_coleta := some found }

/-- `compute_coleta_status` as a heap program: one copy of the labs frame,
five initialising column writes on it; in the non-empty branch one copy of
the gatherings frame (cleaned in place), a merge allocating a new labs frame,
and five more column writes on the merged frame.  Returns the store, the
reference of the returned frame, and the `last_collection` value. -/
def compute_coleta_status_prog (s : Store CSCell) (rLabs rGaths : Nat)
    (current_date : Timestamp) (activity_window_days : Int) :
    Store CSCell × Nat × List (String × Timestamp) :=
  let a1 := s.alloc (.labs (s.cells.getD rLabs (.labs [])).labsRows)
  let s1 := a1.1
  let labsRef := a1.2
  let s2 := csMapLabs s1 labsRef (List.map fun r => { r with ativo_coleta := some false })
  let s3 := csMapLabs s2 labsRef (List.map fun r => { r with days_since_last := some 999 })
  let s4 := csMapLabs s3 labsRef (List.map fun r => { r with ultima_coleta := some none })
  let s5 := csMapLabs s4 labsRef
    (List.map fun r => { r with ultima_coleta_str := some "Sem coletas" })
  let s6 := csMapLabs s5 labsRef (List.map fun r =>
    { r with days_since_last_display := some (displayOfDays (r.days_since_last.getD 999)) })
  let gaths := (s6.cells.getD rGaths (.gaths [])).gathRows
  if gaths.isEmpty then (s6, labsRef, [])
  else
    let a7 := s6.alloc (.gaths gaths)
    let s7 := a7.1
    let cleanRef := a7.2
    let s8 := s7.write cleanRef (.gaths
      ((s7.cells.getD cleanRef (.gaths [])).gathRows.filter fun g => g.createdAt.isSome))
    let clean := (s8.cells.getD cleanRef (.gaths [])).gathRows.filterMap fun g =>
      g.createdAt.map fun t => (g.laboratory, t)
    let last_collection := lastCollectionOf clean
    let a9 := s8.alloc (.labs
      ((s8.cells.getD labsRef (.labs [])).labsRows.map (csMergeCol last_collection)))
    let s9 := a9.1
    let mergedRef := a9.2
    let s10 := csMapLabs s9 mergedRef (List.map fun r =>
      { r with days_since_last := some (daysDiffSafe current_date (r.createdAt_coleta.getD none)) })
    let s11 := csMapLabs s10 mergedRef (List.map fun r =>
      { r with ultima_coleta := r.createdAt_coleta })
    let s12 := csMapLabs s11 mergedRef (List.map fun r =>
      { r with ultima_coleta_str := some (match r.ultima_coleta.getD none with
          | some t => strftimeTs t
          | none => "Sem coletas") })
    let s13 := csMapLabs s12 mergedRef (List.map fun r =>
      { r with days_since_last_display := some (displayOfDays (r.days_since_last.getD 999)) })
    let s14 := csMapLabs s13 mergedRef (List.map fun r =>
      { r with ativo_coleta := some (decide ((r.days_since_last.getD 999) ≤ activity_window_days)) })
    (s14, mergedRef, last_collection)

/-! ## Supporting lemmas -/

theorem perm_insertBy (keep : α → α → Bool) (x : α) (l : List α) :
    List.Perm (insertBy keep x l) (x :: l) := by
  induction l with
  | nil => simp [insertBy]
  | cons y ys ih =>
      by_cases h : keep y x = true
      · simpa [insertBy, h] using (ih.cons y).trans (List.Perm.swap x y ys)
      · simp [insertBy, h]

theorem perm_sortBy (keep : α → α → Bool) (l : List α) :
    List.Perm (sortBy keep l) l := by
  induction l with
  | nil => simp [sortBy]
  | cons x xs ih =>
      exact (perm_insertBy keep x (sortBy keep xs)).trans (ih.cons x)

theorem rawVariation_eq_div (cur : Int) (p : Int) (hp : p ≠ 0) :
    rawVariation cur (some p) = EF.val (((cur : ℚ) - (p : ℚ)) / (p : ℚ) * 100) := by
  simp only [rawVariation, if_neg hp]
  congr 1
  push_cast [Rat.divInt_eq_div]
  ring

/-! ## Claim C1 -/

/-- C1: for every laboratory record, `compute_credenciamento` derives
`is_credenciado = (active == true)`, and the flag depends only on `active`:
two records that agree on `active` (but may differ in `approved` and/or
`exclusionDate`) receive the same `is_credenciado` value. -/
theorem credenciamento_active_only :
    (∀ (df_labs : List LabRec) (r : LabCred), r ∈ compute_credenciamento df_labs →
        r.is_credenciado = decide (r.active = some true)) ∧
    (∀ l1 l2 : LabRec, l1.active = l2.active →
        (compute_credenciamento [l1]).map (·.is_credenciado) =
          (compute_credenciamento [l2]).map (·.is_credenciado)) := by
  constructor
  · intro df_labs r hr
    rcases List.mem_map.mp hr with ⟨lab, _, rfl⟩
    rfl
  · intro l1 l2 h
    simp [compute_credenciamento, h]

/-- Witness for `credenciamento_active_only`: two concrete records agreeing on
`active` but differing in `approved` and `exclusionDate` get the same flag. -/
theorem credenciamento_active_only_witness :
    (LabRec.mk "L1" (some true) (some false) none).active =
      (LabRec.mk "L2" (some true) (some true) (some 0)).active ∧
    (compute_credenciamento [LabRec.mk "L1" (some true) (some false) none]).map
        (·.is_credenciado) =
      (compute_credenciamento [LabRec.mk "L2" (some true) (some true) (some 0)]).map
        (·.is_credenciado) :=
  ⟨rfl, credenciamento_active_only.2 _ _ rfl⟩

/-! ## Claim C8 -/

theorem filter_comm_bool (p q : α → Bool) (l : List α) :
    (l.filter p).filter q = (l.filter q).filter p := by
  simp only [List.filter_filter]
  exact List.filter_congr fun a _ => Bool.and_comm (q a) (p a)

theorem filter_idem_bool (p : α → Bool) (l : List α) :
    (l.filter p).filter p = l.filter p := by
  simp only [List.filter_filter, Bool.and_self]

/-- C8: `filter_active_gatherings` is idempotent (running it again with the
same switches changes nothing), and the test-exclusion and
disabled-in-report-exclusion toggles commute and act independently: applying
the test toggle and then the disabled toggle equals the reverse order, and
both equal a single call with both toggles on. -/
theorem filter_active_gatherings_idem_comm :
    (∀ (df : GFlagsTable) (exclude_test exclude_disabled : Bool),
        filter_active_gatherings (filter_active_gatherings df exclude_test exclude_disabled)
            exclude_test exclude_disabled =
          filter_active_gatherings df exclude_test exclude_disabled) ∧
    (∀ df : GFlagsTable,
        filter_active_gatherings (filter_active_gatherings df true false) false true =
          filter_active_gatherings (filter_active_gatherings df false true) true false ∧
        filter_active_gatherings (filter_active_gatherings df true false) false true =
          filter_active_gatherings df true true) := by
  constructor
  · intro df et ed
    cases df with
    | mk ht hd rows =>
        cases et <;> cases ed <;> cases ht <;> cases hd <;>
          simp [filter_active_gatherings, filter_idem_bool, List.filter_filter] <;>
            (apply List.filter_congr
             intro a _
             cases decide (a.active = some true) <;>
               cases decide (a.test = some false) <;>
               cases decide (a.disabledInReport = some false) <;> rfl)
  · intro df
    cases df with
    | mk ht hd rows =>
        cases ht <;> cases hd <;>
          constructor <;>
            simp [filter_active_gatherings, filter_comm_bool, List.filter_filter] <;>
              (apply List.filter_congr
               intro a _
               cases decide (a.active = some true) <;>
                 cases decide (a.test = some false) <;>
                 cases decide (a.disabledInReport = some false) <;> rfl)

/-! ## Claim C2 -/

/-- The target-month restriction only removes rows. -/
theorem mem_of_mem_filterTargetMonth {target_month : Option Int} {l : List DropRow}
    {d : DropRow} (hd : d ∈ filterTargetMonth target_month l) : d ∈ l := by
  rcases target_month with _ | m
  · exact hd
  · by_cases he : l.isEmpty
    · simpa [filterTargetMonth, he] using hd
    · rw [filterTargetMonth, if_neg he] at hd
      exact (List.mem_filter.mp hd).1

/-- Per-row enrichment only fills `lab_info`. -/
theorem enrichOne_fields {info : List (String × Option String × Option String)}
    {d0 d : DropRow} (hd : d ∈ enrichOne info d0) :
    d.month = d0.month ∧ d.previous_volume = d0.previous_volume ∧ d.is_drop = d0.is_drop := by
  simp only [enrichOne] at hd
  by_cases hms : (info.filter fun t => decide (t.1 = d0.laboratory)).isEmpty
  · rw [if_pos hms] at hd
    rw [List.mem_singleton.mp hd]
    exact ⟨rfl, rfl, rfl⟩
  · rw [if_neg hms] at hd
    rcases List.mem_map.mp hd with ⟨t, _, rfl⟩
    exact ⟨rfl, rfl, rfl⟩

/-- Enrichment only fills `lab_info`: every enriched row comes from a drops row
with the same `previous_volume` and `is_drop`. -/
theorem enrichDrops_fields {df : GDropTable} {drops : List DropRow} {d : DropRow}
    (hd : d ∈ enrichDrops df drops) :
    ∃ d0 ∈ drops, d.previous_volume = d0.previous_volume ∧ d.is_drop = d0.is_drop := by
  unfold enrichDrops at hd
  by_cases h : df.hasFantasyName
  · rw [if_pos h] at hd
    rcases List.mem_flatMap.mp hd with ⟨d0, hd0, hmem⟩
    exact ⟨d0, hd0, (enrichOne_fields hmem).2⟩
  · rw [if_neg h] at hd
    rcases List.mem_map.mp hd with ⟨d0, hd0, rfl⟩
    exact ⟨d0, hd0, rfl, rfl⟩

/-- C2 (amended): in `compute_monthly_variations` and `detect_lab_drops`, a
period whose previous volume is absent (the first period of its grouping key)
gets variation 0 (not NaN) and is never flagged as a drop; but a present
previous volume of 0 with positive current volume yields variation `inf`
(`fillna(0)` does not replace infinities), not 0 — the drop flag is still
false there.  Consequently a first period never appears among the drops. -/
theorem variation_first_period_zero :
    (∀ (monthly : List MonthlyRow) (r : VarRow), r ∈ compute_monthly_variations monthly →
        r.previous_volume = none → r.variation = EF.val 0 ∧ r.is_drop = false) ∧
    (∀ (monthly : List MonthlyRow) (r : VarRow), r ∈ compute_monthly_variations monthly →
        r.previous_volume = some 0 → 0 < r.volume →
        r.variation = EF.inf ∧ r.is_drop = false) ∧
    (∀ (df : GDropTable) (rep_name : String) (target_month : Option Int) (d : DropRow),
        d ∈ detect_lab_drops df rep_name target_month → d.previous_volume ≠ none) := by
  refine ⟨?_, ?_, ?_⟩
  · intro monthly r hr hprev
    unfold compute_monthly_variations at hr
    by_cases hm : monthly.isEmpty
    · simp [hm] at hr
    · simp only [hm, Bool.false_eq_true, if_false] at hr
      rcases List.mem_map.mp hr with ⟨rp, _, rfl⟩
      simp only [mkVarRow] at hprev ⊢
      rw [hprev]
      refine ⟨rfl, ?_⟩
      simp [rawVariation, fillna0, efLt]
  · intro monthly r hr hprev hvol
    unfold compute_monthly_variations at hr
    by_cases hm : monthly.isEmpty
    · simp [hm] at hr
    · simp only [hm, Bool.false_eq_true, if_false] at hr
      rcases List.mem_map.mp hr with ⟨rp, _, rfl⟩
      simp only [mkVarRow] at hprev hvol ⊢
      rw [hprev]
      have h0 : ¬ rp.1.volume = 0 := by omega
      refine ⟨?_, ?_⟩ <;>
        simp [rawVariation, fillna0, efLt, h0, hvol]
  · intro df rep_name target_month d hd hprev
    unfold detect_lab_drops at hd
    by_cases h1 : (repGatheringsOf df.rows rep_name).isEmpty
    · rw [if_pos h1] at hd
      simp at hd
    · rw [if_neg h1] at hd
      by_cases h2 : (filterTargetMonth target_month
          (dropsOf (repGatheringsOf df.rows rep_name))).isEmpty
      · rw [if_pos h2] at hd
        simp at hd
      · rw [if_neg h2] at hd
        rcases enrichDrops_fields hd with ⟨d0, hd0, hprev0, _⟩
        have hd0' : d0 ∈ dropsOf (repGatheringsOf df.rows rep_name) :=
          mem_of_mem_filterTargetMonth hd0
        have hdrop : d0.is_drop = true := (List.mem_filter.mp hd0').2
        rcases List.mem_map.mp (List.mem_filter.mp hd0').1 with ⟨rp, _, rfl⟩
        rw [hprev0] at hprev
        have hrp : rp.2 = none := by simpa [mkDropRow] using hprev
        rw [hrp] at hdrop
        simp [mkDropRow, rawVariation, fillna0, efLt] at hdrop
        exact absurd hdrop (by norm_num)

/-- C2 counterexample: the claim also asserts variation 0 when the previous
volume is present and zero, but on the table with volumes 0 then 5 the second
period's variation is `inf` (pandas `fillna(0)` replaces NaN, not infinity),
not 0. -/
theorem variation_zero_previous_counterexample :
    (compute_monthly_variations [MonthlyRow.mk "2025-01" 0, MonthlyRow.mk "2025-02" 5]).map
        (fun r => (r.previous_volume, r.variation)) =
      [(none, EF.val 0), (some 0, EF.inf)] ∧ EF.inf ≠ EF.val 0 :=
  ⟨by decide, by decide⟩

/-- Witness for `variation_first_period_zero` at concrete inputs: a first
period (previous absent) gets variation 0 and no drop flag; a zero previous
volume with positive current gets variation `inf` and no drop flag; a row
returned by `detect_lab_drops` has a present previous volume. -/
theorem variation_first_period_zero_witness :
    (mkVarRow (-10) "2025-01" 100 none ∈
        compute_monthly_variations [MonthlyRow.mk "2025-01" 100, MonthlyRow.mk "2025-02" 60] ∧
      ((mkVarRow (-10) "2025-01" 100 none).variation = EF.val 0 ∧
        (mkVarRow (-10) "2025-01" 100 none).is_drop = false)) ∧
    (mkVarRow (-10) "2025-02" 5 (some 0) ∈
        compute_monthly_variations [MonthlyRow.mk "2025-01" 0, MonthlyRow.mk "2025-02" 5] ∧
      ((mkVarRow (-10) "2025-02" 5 (some 0)).variation = EF.inf ∧
        (mkVarRow (-10) "2025-02" 5 (some 0)).is_drop = false)) ∧
    (DropRow.mk "L" 2 1 (some 2) (EF.val (-50)) true "Laboratório ID: L" ∈
        detect_lab_drops (GDropTable.mk false
          [GDropRow.mk "L" (some "R") 1 none none, GDropRow.mk "L" (some "R") 1 none none,
           GDropRow.mk "L" (some "R") 2 none none]) "R" none ∧
      (DropRow.mk "L" 2 1 (some 2) (EF.val (-50)) true "Laboratório ID: L").previous_volume ≠
        none) := by
  have h1 : mkVarRow (-10) "2025-01" 100 none ∈
      compute_monthly_variations [MonthlyRow.mk "2025-01" 100, MonthlyRow.mk "2025-02" 60] := by
    decide
  have h2 : mkVarRow (-10) "2025-02" 5 (some 0) ∈
      compute_monthly_variations [MonthlyRow.mk "2025-01" 0, MonthlyRow.mk "2025-02" 5] := by
    decide
  have h3 : DropRow.mk "L" 2 1 (some 2) (EF.val (-50)) true "Laboratório ID: L" ∈
      detect_lab_drops (GDropTable.mk false
        [GDropRow.mk "L" (some "R") 1 none none, GDropRow.mk "L" (some "R") 1 none none,
         GDropRow.mk "L" (some "R") 2 none none]) "R" none := by
    decide
  exact ⟨⟨h1, variation_first_period_zero.1 _ _ h1 rfl⟩,
    ⟨h2, variation_first_period_zero.2.1 _ _ h2 rfl (by decide)⟩,
    ⟨h3, variation_first_period_zero.2.2 _ _ _ _ h3⟩⟩

/-! ## Claim C7 -/

theorem enrichDrops_nil (df : GDropTable) : enrichDrops df [] = [] := by
  unfold enrichDrops
  by_cases h : df.hasFantasyName
  · rw [if_pos h]; rfl
  · rw [if_neg h]; rfl

/-- Restricting to a month commutes with the enrichment, which preserves the
`month` field. -/
theorem enrichDrops_filter_month (df : GDropTable) (m : Int) (l : List DropRow) :
    (enrichDrops df l).filter (fun d => decide (d.month = m)) =
      enrichDrops df (l.filter fun d => decide (d.month = m)) := by
  unfold enrichDrops
  by_cases h : df.hasFantasyName
  · rw [if_pos h, if_pos h]
    induction l with
    | nil => rfl
    | cons d ds ih =>
        rw [List.flatMap_cons, List.filter_append, ih, List.filter_cons]
        by_cases hd : decide (d.month = m) = true
        · rw [if_pos hd, List.flatMap_cons]
          congr 1
          apply List.filter_eq_self.mpr
          intro r hr
          rw [decide_eq_true_eq] at hd ⊢
          rw [(enrichOne_fields hr).1, hd]
        · rw [if_neg hd]
          have hnil : (enrichOne
              ((df.rows.map fun g => (g.laboratory, g.fantasyName, g.cnpj)).dedup) d).filter
              (fun r => decide (r.month = m)) = [] := by
            apply List.filter_eq_nil_iff.mpr
            intro r hr
            rw [(enrichOne_fields hr).1]
            simpa using hd
          rw [hnil, List.nil_append]
  · rw [if_neg h, if_neg h]
    rw [List.filter_map]
    rfl

/-- C7: with a target month supplied, `detect_lab_drops` returns exactly the
rows of the unrestricted computation that carry that month: the filter is
applied after the per-laboratory variations and drop flags are computed over
the full monthly series. -/
theorem detect_lab_drops_filter_after (df : GDropTable) (rep_name : String) (m : Int) :
    detect_lab_drops df rep_name (some m) =
      (detect_lab_drops df rep_name none).filter fun d => decide (d.month = m) := by
  unfold detect_lab_drops
  by_cases h1 : (repGatheringsOf df.rows rep_name).isEmpty
  · rw [if_pos h1, if_pos h1]
    rfl
  · rw [if_neg h1, if_neg h1]
    have hnone : filterTargetMonth none (dropsOf (repGatheringsOf df.rows rep_name)) =
        dropsOf (repGatheringsOf df.rows rep_name) := rfl
    rw [hnone]
    by_cases h2 : (dropsOf (repGatheringsOf df.rows rep_name)).isEmpty
    · rw [List.isEmpty_iff.mp h2]
      simp [filterTargetMonth]
    · have hsome : filterTargetMonth (some m) (dropsOf (repGatheringsOf df.rows rep_name)) =
          (dropsOf (repGatheringsOf df.rows rep_name)).filter fun d => decide (d.month = m) := by
        rw [filterTargetMonth, if_neg h2]
      rw [hsome, if_neg h2]
      by_cases h3 : ((dropsOf (repGatheringsOf df.rows rep_name)).filter
          fun d => decide (d.month = m)).isEmpty
      · rw [if_pos h3, enrichDrops_filter_month, List.isEmpty_iff.mp h3, enrichDrops_nil]
      · rw [if_neg h3, enrichDrops_filter_month]

/-! ## Claim C3 -/

theorem sum_filter_not_split (p : α → Bool) (val : α → Int) (l : List α) :
    ((l.filter p).map val).sum + ((l.filter fun a => !p a).map val).sum =
      (l.map val).sum := by
  induction l with
  | nil => simp
  | cons a l ih =>
      by_cases h : p a = true <;> simp [List.filter_cons, h] <;> omega

/-- Summing the per-key fiber sums over a duplicate-free list of keys covering
every row gives the total sum: the groupby-sum partition identity. -/
theorem sum_fiberwise [DecidableEq κ] (key : α → κ) (val : α → Int) :
    ∀ keys : List κ, keys.Nodup → ∀ rows : List α, (∀ r ∈ rows, key r ∈ keys) →
      (keys.map fun k => ((rows.filter fun r => decide (key r = k)).map val).sum).sum =
        (rows.map val).sum := by
  intro keys
  induction keys with
  | nil =>
      intro _ rows hall
      cases rows with
      | nil => simp
      | cons r rs => exact absurd (hall r (List.mem_cons_self r rs)) (List.not_mem_nil _)
  | cons k ks ih =>
      intro hnd rows hall
      rcases List.nodup_cons.mp hnd with ⟨hk, hnd'⟩
      have hall' : ∀ r ∈ rows.filter fun r => !decide (key r = k), key r ∈ ks := by
        intro r hr
        rcases List.mem_filter.mp hr with ⟨hrm, hne⟩
        rcases List.mem_cons.mp (hall r hrm) with he | hin
        · simp [he] at hne
        · exact hin
      have hrest : (ks.map fun x =>
          ((rows.filter fun r => decide (key r = x)).map val).sum).sum =
          ((rows.filter fun r => !decide (key r = k)).map val).sum := by
        have hfib : ∀ x ∈ ks, (rows.filter fun r => decide (key r = x)) =
            ((rows.filter fun r => !decide (key r = k)).filter
              fun r => decide (key r = x)) := by
          intro x hx
          rw [List.filter_filter]
          apply List.filter_congr
          intro r _
          by_cases hr : key r = x
          · have hxk : ¬ x = k := fun hh => hk (hh ▸ hx)
            have hrk : ¬ key r = k := by rw [hr]; exact hxk
            simp [hr, hrk]
            exact hxk
          · simp [hr]
        calc (ks.map fun x => ((rows.filter fun r => decide (key r = x)).map val).sum).sum
            = (ks.map fun x => (((rows.filter fun r => !decide (key r = k)).filter
                fun r => decide (key r = x)).map val).sum).sum := by
              apply congrArg List.sum
              apply List.map_congr_left
              intro x hx
              rw [hfib x hx]
          _ = ((rows.filter fun r => !decide (key r = k)).map val).sum :=
              ih hnd' _ hall'
      rw [List.map_cons, List.sum_cons, hrest]
      exact sum_filter_not_split (fun r => decide (key r = k)) val rows

/-- The per-month sums cover all rows: their total is the raw total. -/
theorem perMonthSums_sum (rows : List KpiRow) :
    (perMonthSums rows).sum = (rows.map (·.volume)).sum := by
  unfold perMonthSums
  have hperm := (perm_sortBy (fun a b => strLt a b) (rows.map (·.month)).dedup).map
    fun m => ((rows.filter fun r => decide (r.month = m)).map (·.volume)).sum
  rw [hperm.sum_eq]
  exact sum_fiberwise (fun r : KpiRow => r.month) (fun r => r.volume)
    (rows.map (·.month)).dedup (List.nodup_dedup _) rows
    fun r hr => List.mem_dedup.mpr (List.mem_map_of_mem _ hr)

theorem perMonthSums_ne_nil {rows : List KpiRow} (h : rows ≠ []) :
    perMonthSums rows ≠ [] := by
  cases rows with
  | nil => exact absurd rfl h
  | cons r rs =>
      unfold perMonthSums
      intro hcon
      rcases List.map_eq_nil_iff.mp hcon with hs
      have hlen := (perm_sortBy (fun a b => strLt a b)
        ((r :: rs).map (·.month)).dedup).length_eq
      rw [hs] at hlen
      have : r.month ∈ ((r :: rs).map (·.month)).dedup :=
        List.mem_dedup.mpr (List.mem_map_of_mem _ (List.mem_cons_self r rs))
      rw [List.eq_nil_of_length_eq_zero hlen.symm] at this
      exact absurd this (List.not_mem_nil _)

/-- C3: on a monthly table with a `Categoria` column, `compute_kpis` returns a
`total` equal to the sum of all period-category volumes, while `max`, `min`
and `avg` (the truncated mean) are computed over the per-month sums obtained
by collapsing categories within each month; all four values are integers by
construction, and an empty or `Volume`-less table yields all zeros. -/
theorem compute_kpis_spec :
    (∀ monthly : KpiTable, monthly.cols.contains "Volume" = true →
        monthly.cols.contains "Categoria" = true →
        (compute_kpis monthly).total = (monthly.rows.map (·.volume)).sum ∧
        (compute_kpis monthly).max = listMax (perMonthSums monthly.rows) ∧
        (compute_kpis monthly).min = listMin (perMonthSums monthly.rows) ∧
        (compute_kpis monthly).avg = ratTrunc (Rat.divInt (perMonthSums monthly.rows).sum
          (perMonthSums monthly.rows).length)) ∧
    (∀ monthly : KpiTable, monthly.rows = [] ∨ monthly.cols.contains "Volume" = false →
        compute_kpis monthly = ⟨0, 0, 0, 0⟩) := by
  constructor
  · intro monthly hv hc
    unfold compute_kpis
    by_cases he : monthly.rows.isEmpty
    · rw [if_pos (by rw [he]; rfl)]
      rw [List.isEmpty_iff.mp he]
      refine ⟨rfl, rfl, rfl, rfl⟩
    · have hcond : (monthly.rows.isEmpty || !monthly.cols.contains "Volume") = false := by
        rw [hv, Bool.not_true, Bool.or_false]
        exact Bool.eq_false_iff.mpr he
      rw [if_neg (show ¬ (monthly.rows.isEmpty || !monthly.cols.contains "Volume") = true from by
        rw [hcond]; exact Bool.false_ne_true)]
      rw [if_pos hc]
      have hrows : monthly.rows ≠ [] := fun hnil => he (by rw [hnil]; rfl)
      have hne : perMonthSums monthly.rows ≠ [] := perMonthSums_ne_nil hrows
      rw [if_neg (fun hemp => hne (List.isEmpty_iff.mp hemp))]
      exact ⟨perMonthSums_sum monthly.rows, rfl, rfl, rfl⟩
  · intro monthly h
    unfold compute_kpis
    rcases h with he | hv
    · rw [if_pos (by rw [he]; rfl)]
    · rw [if_pos (by rw [hv]; simp)]

/-- Witness for `compute_kpis_spec`: two categories with volumes 5 and 10 in
the same month contribute a single combined 15 to `max`, `min` and `avg`, and
15 to `total`; the empty table yields zeros. -/
theorem compute_kpis_spec_witness :
    (compute_kpis ⟨["month", "Categoria", "Volume"],
        [KpiRow.mk "2025-01" "Interno" 5, KpiRow.mk "2025-01" "Externo" 10]⟩ =
          ⟨15, 15, 15, 15⟩ ∧
      perMonthSums [KpiRow.mk "2025-01" "Interno" 5, KpiRow.mk "2025-01" "Externo" 10] =
        [15]) ∧
    (compute_kpis ⟨["month", "Categoria", "Volume"],
        [KpiRow.mk "2025-01" "Interno" 5, KpiRow.mk "2025-01" "Externo" 10]⟩).total =
      ([KpiRow.mk "2025-01" "Interno" 5, KpiRow.mk "2025-01" "Externo" 10].map
        (·.volume)).sum ∧
    compute_kpis ⟨["month", "Categoria", "Volume"], []⟩ = ⟨0, 0, 0, 0⟩ := by
  refine ⟨⟨by decide, by decide⟩, ?_, ?_⟩
  · exact (compute_kpis_spec.1 _ (by decide) (by decide)).1
  · exact compute_kpis_spec.2 _ (Or.inl rfl)

/-! ## Claims C4 and C10 -/

/-- Every key of the per-laboratory last-collection table is the key of some
cleaned gathering row. -/
theorem lastCollectionOf_find_none {clean : List (String × Timestamp)} {x : String}
    (hx : ∀ c ∈ clean, c.1 ≠ x) :
    (lastCollectionOf clean).find? (fun c => decide (c.1 = x)) = none := by
  apply List.find?_eq_none.mpr
  intro e he
  unfold lastCollectionOf at he
  rcases List.mem_filterMap.mp he with ⟨k, hk, hfk⟩
  have hkin : k ∈ (clean.map (·.1)).dedup :=
    (perm_sortBy (fun a b => strLt a b) (clean.map (·.1)).dedup).subset hk
  rcases List.mem_map.mp (List.mem_dedup.mp hkin) with ⟨c, hc, rfl⟩
  have he1 : e.1 = c.1 := by
    rcases hm : (clean.filter fun d => decide (d.1 = c.1)).map (·.2) with _ | ⟨t, ts⟩ <;>
      rw [hm] at hfk
    · cases hfk
    · cases hfk
      rfl
  simp [he1, hx c hc]

/-- C4 (amended): a laboratory with no matching valid gathering gets the
sentinel `days_since_last = 999`, the dash display (never the literal
`"999"`), and `ultima_coleta_str = "Sem coletas"`; its `ativo_coleta` is
false whenever the gatherings table is empty or the activity window is below
999 — but with a non-empty gatherings table the code sets
`ativo_coleta = (999 ≤ window)`, so a window of 999 or more marks such a
laboratory active. -/
theorem coleta_no_gatherings_defaults
    (labs : List ColetaLab) (gs : List ColetaGathering) (current : Timestamp)
    (window : Int) (i : ℕ) (l : ColetaLab)
    (hl : labs[i]? = some l)
    (hnone : ∀ g ∈ gs, g.laboratory = l.lab_id → g.createdAt = none) :
    ∃ r : ColetaStatus, (compute_coleta_status labs gs current window).1[i]? = some r ∧
      r.days_since_last = 999 ∧ r.days_since_last_display = "-" ∧
      r.ultima_coleta_str = "Sem coletas" ∧
      r.ativo_coleta = (gs.isEmpty = false && decide ((999:Int) ≤ window)) ∧
      (gs = [] ∨ window < 999 → r.ativo_coleta = false) := by
  unfold compute_coleta_status
  by_cases hg : gs.isEmpty
  · rw [if_pos hg]
    refine ⟨initColetaStatus l, ?_, rfl, rfl, rfl, ?_, fun _ => rfl⟩
    · simp [List.getElem?_map, hl]
    · rw [hg]
      rfl
  · rw [if_neg hg]
    have hfind : (lastCollectionOf (gs.filterMap fun g =>
        g.createdAt.map fun t => (g.laboratory, t))).find?
        (fun c => decide (c.1 = l.lab_id)) = none := by
      apply lastCollectionOf_find_none
      intro c hc
      rcases List.mem_filterMap.mp hc with ⟨g, hgm, hgc⟩
      rcases hg2 : g.createdAt with _ | t <;> rw [hg2] at hgc
      · cases hgc
      · cases hgc
        intro hlab
        exact absurd (hnone g hgm hlab) (by rw [hg2]; exact Option.some_ne_none t)
    refine ⟨mergedColetaStatus (lastCollectionOf (gs.filterMap fun g =>
        g.createdAt.map fun t => (g.laboratory, t))) current window l, ?_, ?_, ?_, ?_, ?_, ?_⟩
    · simp [List.getElem?_map, hl]
    · simp [mergedColetaStatus, hfind, daysDiffSafe]
    · simp [mergedColetaStatus, hfind, daysDiffSafe, displayOfDays]
    · simp [mergedColetaStatus, hfind]
    · simp only [Bool.not_eq_true] at hg
      simp [mergedColetaStatus, hfind, daysDiffSafe, hg]
    · intro hcase
      rcases hcase with he | hw
      · rw [he] at hg
        exact absurd rfl hg
      · have : ¬ ((999:Int) ≤ window) := by omega
        simp [mergedColetaStatus, hfind, daysDiffSafe, this]

/-- C4 counterexample: the claim quantifies over every activity-window value,
but with one gathering belonging to another laboratory and a window of 999
days, the laboratory with zero matching gatherings is marked
`ativo_coleta = true` (999 ≤ 999), while the other three fields behave as
claimed. -/
theorem coleta_no_gatherings_counterexample :
    ((compute_coleta_status [ColetaLab.mk "L1"]
        [ColetaGathering.mk "L2" (some (Timestamp.mk 2025 1 1 0 0))]
        (Timestamp.mk 2025 6 1 0 0) 999).1.map
      fun r => (r.days_since_last, r.days_since_last_display, r.ultima_coleta_str,
        r.ativo_coleta)) = [(999, "-", "Sem coletas", true)] := by
  decide

/-- Witness for `coleta_no_gatherings_defaults`: with an empty gatherings
table and window 15 the defaults hold and the laboratory is inactive. -/
theorem coleta_no_gatherings_defaults_witness :
    ∃ r : ColetaStatus,
      (compute_coleta_status [ColetaLab.mk "L1"] [] (Timestamp.mk 2025 6 1 0 0) 15).1[0]? =
        some r ∧
      r.days_since_last = 999 ∧ r.days_since_last_display = "-" ∧
      r.ultima_coleta_str = "Sem coletas" ∧
      r.ativo_coleta = (([] : List ColetaGathering).isEmpty = false &&
        decide ((999:Int) ≤ 15)) ∧
      (([] : List ColetaGathering) = [] ∨ (15:Int) < 999 → r.ativo_coleta = false) :=
  coleta_no_gatherings_defaults [ColetaLab.mk "L1"] [] (Timestamp.mk 2025 6 1 0 0) 15 0
    (ColetaLab.mk "L1") (by decide) (by intro g hg; cases hg)

/-- C10: a laboratory whose most recent valid gathering lies exactly 999 days
before the reference instant receives `days_since_last = 999` — the sentinel —
and hence the dash display, identical to the display of a laboratory that
never collected, while `ultima_coleta_str` still renders the actual date. -/
theorem coleta_sentinel_aliases_real_recency
    (labs : List ColetaLab) (gs : List ColetaGathering) (current : Timestamp)
    (window : Int) (i : ℕ) (l : ColetaLab) (ts : Timestamp)
    (hl : labs[i]? = some l)
    (hg : gs.isEmpty = false)
    (hfound : ((lastCollectionOf (gs.filterMap fun g =>
        g.createdAt.map fun t => (g.laboratory, t))).find?
        (fun c => decide (c.1 = l.lab_id))).map (·.2) = some ts)
    (hdays : tdDays current ts = 999) :
    ∃ r : ColetaStatus, (compute_coleta_status labs gs current window).1[i]? = some r ∧
      r.days_since_last = 999 ∧ r.days_since_last_display = "-" ∧
      r.days_since_last_display = (initColetaStatus l).days_since_last_display ∧
      r.ultima_coleta_str = strftimeTs ts := by
  unfold compute_coleta_status
  rw [if_neg (by rw [hg]; exact Bool.false_ne_true)]
  refine ⟨mergedColetaStatus (lastCollectionOf (gs.filterMap fun g =>
      g.createdAt.map fun t => (g.laboratory, t))) current window l, ?_, ?_, ?_, ?_, ?_⟩
  · simp [List.getElem?_map, hl]
  · simp [mergedColetaStatus, hfound, daysDiffSafe, hdays]
  · simp [mergedColetaStatus, hfound, daysDiffSafe, hdays, displayOfDays]
  · simp [mergedColetaStatus, hfound, daysDiffSafe, hdays, displayOfDays, initColetaStatus]
  · simp [mergedColetaStatus, hfound]

/-- Witness for `coleta_sentinel_aliases_real_recency`: a gathering on
2023-01-01 00:00 viewed from 2025-09-26 00:00 lies exactly 999 days back; the
display shows the dash while the timestamp string shows the date. -/
theorem coleta_sentinel_aliases_real_recency_witness :
    (∃ r : ColetaStatus,
      (compute_coleta_status [ColetaLab.mk "L1"]
          [ColetaGathering.mk "L1" (some (Timestamp.mk 2023 1 1 0 0))]
          (Timestamp.mk 2025 9 26 0 0) 15).1[0]? = some r ∧
        r.days_since_last = 999 ∧ r.days_since_last_display = "-" ∧
        r.days_since_last_display =
          (initColetaStatus (ColetaLab.mk "L1")).days_since_last_display ∧
        r.ultima_coleta_str = strftimeTs (Timestamp.mk 2023 1 1 0 0)) ∧
    strftimeTs (Timestamp.mk 2023 1 1 0 0) = "01/01/2023 00:00" ∧
    strftimeTs (Timestamp.mk 2023 1 1 0 0) ≠ "Sem coletas" :=
  ⟨coleta_sentinel_aliases_real_recency [ColetaLab.mk "L1"]
      [ColetaGathering.mk "L1" (some (Timestamp.mk 2023 1 1 0 0))]
      (Timestamp.mk 2025 9 26 0 0) 15 0 (ColetaLab.mk "L1") (Timestamp.mk 2023 1 1 0 0)
      (by decide) (by decide) (by decide) (by decide),
    by decide, by decide⟩

/-! ## Claim C6 -/

/-- C6: when the gatherings table lacks a required location column, both
geography aggregations return — without raising — an empty table whose
column list is exactly the documented schema. -/
theorem geographic_missing_columns_schema :
    (∀ (g : GeoGTable) (labs : List GeoLab),
        g.cols.contains "state_code" = false ∨ g.cols.contains "state_name" = false →
        compute_geographic_metrics g labs = ⟨geoSchema, []⟩) ∧
    (∀ (g : GeoGTable) (labs : List GeoLab),
        g.cols.contains "state_code" = false ∨ g.cols.contains "state_name" = false ∨
          g.cols.contains "city" = false →
        compute_city_metrics g labs = ⟨citySchema, []⟩) ∧
    geoSchema = ["state_code", "state_name", "labs_ativos", "total_coletas", "total_labs",
      "labs_credenciados", "labs_inativos", "taxa_ativacao", "produtividade"] ∧
    citySchema = ["state_code", "state_name", "city", "labs_ativos", "total_coletas",
      "total_labs", "labs_credenciados", "labs_inativos", "taxa_ativacao",
      "produtividade"] := by
  refine ⟨?_, ?_, rfl, rfl⟩
  · intro g labs h
    unfold compute_geographic_metrics
    have hcond : (!g.cols.contains "state_code" || !g.cols.contains "state_name") = true := by
      rcases h with h | h <;> rw [h] <;> simp
    rw [if_pos hcond]
  · intro g labs h
    unfold compute_city_metrics
    have hcond : (!g.cols.contains "state_code" || !g.cols.contains "state_name" ||
        !g.cols.contains "city") = true := by
      rcases h with h | h | h <;> rw [h] <;> simp
    rw [if_pos hcond]

/-- Witness for `geographic_missing_columns_schema`: a table with no location
columns for the state variant, and one with state columns but no city column
for the city variant. -/
theorem geographic_missing_columns_schema_witness :
    compute_geographic_metrics ⟨["month", "Volume"], []⟩ [] = ⟨geoSchema, []⟩ ∧
    compute_city_metrics ⟨["state_code", "state_name"], []⟩ [] = ⟨citySchema, []⟩ :=
  ⟨geographic_missing_columns_schema.1 ⟨["month", "Volume"], []⟩ [] (Or.inl (by decide)),
    geographic_missing_columns_schema.2.1 ⟨["state_code", "state_name"], []⟩ []
      (Or.inr (Or.inr (by decide)))⟩

/-! ## Claim C9 -/

/-- C9: the three transformations leave their input cells untouched — every
column assignment targets the frame allocated by `.copy()`, `sort_values` or
`merge`, never the caller's table, so after the call the input reference
still holds exactly its original value. -/
theorem transformations_preserve_inputs :
    (∀ (s : Store (List CredProgRow)) (input : Nat), input < s.cells.length →
      (compute_credenciamento_prog s input).1.cells[input]? = s.cells[input]?) ∧
    (∀ (s : Store (List MVProgRow)) (input : Nat), input < s.cells.length →
      (compute_monthly_variations_prog s input).1.cells[input]? = s.cells[input]?) ∧
    (∀ (s : Store CSCell) (rLabs rGaths : Nat) (current : Timestamp) (window : Int),
      rLabs < s.cells.length → rGaths < s.cells.length →
      (compute_coleta_status_prog s rLabs rGaths current window).1.cells[rLabs]? =
          s.cells[rLabs]? ∧
        (compute_coleta_status_prog s rLabs rGaths current window).1.cells[rGaths]? =
          s.cells[rGaths]?) := by
  refine ⟨?_, ?_, ?_⟩
  · intro s input h
    unfold compute_credenciamento_prog Store.alloc Store.write
    simp only
    rw [List.getElem?_set_ne (by omega)]
    rw [List.getElem?_append_left h]
  · intro s input h
    unfold compute_monthly_variations_prog Store.alloc Store.write
    simp only
    split
    · rw [List.getElem?_append_left h]
    · rw [List.getElem?_set_ne (by omega), List.getElem?_set_ne (by omega),
        List.getElem?_set_ne (by omega), List.getElem?_set_ne (by omega),
        List.getElem?_append_left h]
  · intro s rLabs rGaths current window h1 h2
    constructor
    · unfold compute_coleta_status_prog csMapLabs Store.alloc Store.write
      simp only
      split
      · rw [List.getElem?_set_ne (by omega), List.getElem?_set_ne (by omega),
          List.getElem?_set_ne (by omega), List.getElem?_set_ne (by omega),
          List.getElem?_set_ne (by omega), List.getElem?_append_left h1]
      · simp (disch := (try simp only [List.length_set, List.length_append,
          List.length_cons, List.length_nil]); omega) only
          [List.getElem?_set_ne, List.getElem?_append_left]
    · unfold compute_coleta_status_prog csMapLabs Store.alloc Store.write
      simp only
      split
      · rw [List.getElem?_set_ne (by omega), List.getElem?_set_ne (by omega),
          List.getElem?_set_ne (by omega), List.getElem?_set_ne (by omega),
          List.getElem?_set_ne (by omega), List.getElem?_append_left h2]
      · simp (disch := (try simp only [List.length_set, List.length_append,
          List.length_cons, List.length_nil]); omega) only
          [List.getElem?_set_ne, List.getElem?_append_left]

/-- Witness for `transformations_preserve_inputs` on one-cell and two-cell
stores holding concrete tables. -/
theorem transformations_preserve_inputs_witness :
    ((compute_credenciamento_prog ⟨[[CredProgRow.mk (some true) none]]⟩ 0).1.cells[0]? =
      (⟨[[CredProgRow.mk (some true) none]]⟩ : Store (List CredProgRow)).cells[0]?) ∧
    ((compute_monthly_variations_prog
        ⟨[[MVProgRow.mk "2025-01" 3 none none none]]⟩ 0).1.cells[0]? =
      (⟨[[MVProgRow.mk "2025-01" 3 none none none]]⟩ : Store (List MVProgRow)).cells[0]?) ∧
    ((compute_coleta_status_prog
        ⟨[CSCell.labs [CSProgRow.mk "L1" none none none none none none],
          CSCell.gaths [ColetaGathering.mk "L1" (some (Timestamp.mk 2025 1 1 0 0))]]⟩
        0 1 (Timestamp.mk 2025 6 1 0 0) 15).1.cells[0]? =
      (⟨[CSCell.labs [CSProgRow.mk "L1" none none none none none none],
          CSCell.gaths [ColetaGathering.mk "L1" (some (Timestamp.mk 2025 1 1 0 0))]]⟩ :
        Store CSCell).cells[0]?) :=
  ⟨transformations_preserve_inputs.1 _ 0 (by decide),
    transformations_preserve_inputs.2.1 _ 0 (by decide),
    (transformations_preserve_inputs.2.2 _ 0 1 (Timestamp.mk 2025 6 1 0 0) 15
      (by decide) (by decide)).1⟩

end SynTox
